import Mathlib

/-!
Shallow embedding of a student-records CRUD service (FastAPI + MongoDB):
the domain model (`models.py`) and the five request handlers (`routes.py`),
with MongoDB interactions modelled as explicit state passing over an
association-list database.
-/

namespace StudentApp

/-- JSON-like values as carried in request/response bodies and stored
documents (Python's loosely-typed mappings). -/
inductive Value where
  | vstr (s : String)
  | vint (n : Int)
  | varr (elems : List Value)
  | vobj (fields : List (String × Value))
deriving Repr

/-- Structural equality on values (Python `==` on these shapes). -/
def Value.beq : Value → Value → Bool
  | .vstr a, .vstr b => a == b
  | .vint a, .vint b => a == b
  | .varr [], .varr [] => true
  | .varr (x :: xs), .varr (y :: ys) => x.beq y && Value.beq (.varr xs) (.varr ys)
  | .vobj [], .vobj [] => true
  | .vobj ((k, v) :: fs), .vobj ((k', v') :: gs) =>
    k == k' && v.beq v' && Value.beq (.vobj fs) (.vobj gs)
  | _, _ => false

instance : DecidableEq Value := fun a b =>
  decidable_of_iff (Value.beq a b = true) (by
    induction a, b using Value.beq.induct <;> try simp_all [Value.beq]
    case case7 x y h1 h2 h3 h4 h5 h6 =>
      cases x <;> cases y <;> try simp [Value.beq]
      case vstr.vstr a b => exact absurd rfl (h1 a b rfl)
      case vint.vint a b => exact absurd rfl (h2 a b rfl)
      case varr.varr l1 l2 =>
        cases l1 <;> cases l2 <;> try simp [Value.beq]
        case nil.nil => exact absurd rfl (h3 rfl)
        case cons.cons a as b bs => exact absurd rfl (h4 a as b bs rfl)
      case vobj.vobj l1 l2 =>
        cases l1 <;> cases l2 <;> try simp [Value.beq]
        case nil.nil => exact absurd rfl (h5 rfl)
        case cons.cons p fs q gs =>
          obtain ⟨k, v⟩ := p
          obtain ⟨k', v'⟩ := q
          exact absurd rfl (h6 k v fs k' v' gs rfl))

/-- A Python dict with string keys, as an association list (insertion order
preserved, keys unique in all dicts the code builds). -/
abbrev Fields := List (String × Value)

/-- Dict lookup: first binding of the key. -/
def alGet {α : Type} : List (String × α) → String → Option α
  | [], _ => none
  | (k', v) :: rest, k => if k' = k then some v else alGet rest k

/-- Dict assignment `d[k] = v`: replace in place if the key exists,
else append (Python dict insertion-order semantics). -/
def alSet {α : Type} : List (String × α) → String → α → List (String × α)
  | [], k, v => [(k, v)]
  | (k', v') :: rest, k, v =>
    if k' = k then (k, v) :: rest else (k', v') :: alSet rest k v

/-- `del d[k]` / Mongo `delete_one`: remove the first binding of the key. -/
def alErase {α : Type} : List (String × α) → String → List (String × α)
  | [], _ => []
  | (k', v') :: rest, k => if k' = k then rest else (k', v') :: alErase rest k

/-- Python truthiness of a value (`bool(v)`). -/
def Value.truthy : Value → Bool
  | .vstr s => s != ""
  | .vint n => n != 0
  | .varr xs => !xs.isEmpty
  | .vobj fs => !fs.isEmpty

/-! ## Domain model (`models.py`) -/

/-- `Address` as constructed by `Address.__init__`: the two attributes hold
whatever (truthy) values were passed in — the constructor checks truthiness,
not string-ness. -/
structure Address where
  city : Value
  country : Value
deriving DecidableEq, Repr

/-- `Address.__init__(city, country)`: `if not city or not country: raise
ValueError(...)`. The arguments come from `dict.get` and so may be absent
(Python `None`, which is falsy). -/
def Address.init : Option Value → Option Value → Except String Address
  | some c, some k =>
    if c.truthy && k.truthy then .ok ⟨c, k⟩
    else .error "City and country are required"
  | _, _ => .error "City and country are required"

/-- `Address.to_dict`. -/
def Address.to_dict (a : Address) : Value :=
  .vobj [("city", a.city), ("country", a.country)]

/-- `Student` as constructed by `Student.__init__`. -/
structure Student where
  name : String
  age : Int
  address : Address
deriving DecidableEq, Repr

/-- `Student.__init__(name, age, address)` with its validation:
name must be a truthy string, age a non-negative integer, address a dict;
then the nested `Address` is built from `address.get('city')` /
`address.get('country')`. -/
def Student.init (name age address : Value) : Except String Student :=
  match name with
  | .vstr s =>
    if s = "" then .error "Name must be a non-empty string"
    else
      match age with
      | .vint n =>
        if n < 0 then .error "Age must be a non-negative integer"
        else
          match address with
          | .vobj fs =>
            match Address.init (alGet fs "city") (alGet fs "country") with
            | .ok a => .ok ⟨s, n, a⟩
            | .error e => .error e
          | _ => .error "Address must be a dictionary"
      | _ => .error "Age must be a non-negative integer"
  | _ => .error "Name must be a non-empty string"

/-- `Student.to_dict`. -/
def Student.to_dict (s : Student) : Fields :=
  [("name", .vstr s.name), ("age", .vint s.age), ("address", s.address.to_dict)]

/-- `Student.from_dict(data)`: subscripts `data['name']`, `data['age']`,
`data['address']` (raising `KeyError` on the first absent key, whose `str`
is the quoted key name) and re-runs `Student.__init__`. -/
def Student.from_dict (data : Fields) : Except String Student :=
  match alGet data "name", alGet data "age", alGet data "address" with
  | some n, some a, some ad => Student.init n a ad
  | none, _, _ => .error "'name'"
  | _, none, _ => .error "'age'"
  | _, _, none => .error "'address'"

/-! ## Storage model (MongoDB via motor) -/

/-- Outcome of one handler call: a successful response with status and
optional JSON body, a raised `HTTPException(status, detail)`, or an
exception that escapes the handler uncaught (e.g. `bson.errors.InvalidId`)
— surfaced by the framework as a 500, not a client-input error. -/
inductive Resp where
  | ok (status : Nat) (body : Option Value)
  | httpError (status : Nat) (detail : String)
  | pyError (msg : String)
deriving DecidableEq, Repr

/-- The `students` collection: documents keyed by their `_id` (a 24-char
lowercase hex string), plus a counter from which fresh ids are generated. -/
structure DB where
  docs : List (String × Fields)
  counter : Nat
deriving DecidableEq, Repr

def emptyDB : DB := ⟨[], 0⟩

/-- Lowercase hex digit for `n < 16`. -/
def hexDigit (n : Nat) : Char :=
  if n < 10 then Char.ofNat (48 + n) else Char.ofNat (87 + n)

/-- The id assigned by the storage layer to the `n`-th insert: a 24-char
lowercase hex rendering of `n`. -/
def genOid (n : Nat) : String :=
  String.mk ((List.range 24).map fun i => hexDigit (n / 16 ^ (23 - i) % 16))

def isHexChar (c : Char) : Bool :=
  c.isDigit || ('a' ≤ c && c ≤ 'f') || ('A' ≤ c && c ≤ 'F')

/-- ASCII lowercase of one character. -/
def lowerChar (c : Char) : Char :=
  if 'A' ≤ c ∧ c ≤ 'Z' then Char.ofNat (c.toNat + 32) else c

/-- ASCII lowercase of a string. -/
def strToLower (s : String) : String := String.mk (s.data.map lowerChar)

/-- `bson.ObjectId(s)`: accepts a 24-character hex string (normalised to
lowercase); anything else raises `bson.errors.InvalidId`, which no handler
catches. -/
def parseObjectId (s : String) : Except String String :=
  if s.length = 24 && s.data.all isHexChar then .ok (strToLower s)
  else .error ("InvalidId: '" ++ s ++ "' is not a valid ObjectId")

/-- Mongo filter document built by `list_students`. -/
structure MongoQuery where
  country : Option String
  ageGte : Option Int
deriving DecidableEq, Repr

/-- Value of the dotted path `address.country` in a document. -/
def addressCountry (doc : Fields) : Option Value :=
  match alGet doc "address" with
  | some (.vobj a) => alGet a "country"
  | _ => none

/-- Whether a document matches the filter: `{"address.country": c}` is an
exact match on the dotted path, `{"age": {"$gte": a}}` an inclusive
numeric lower bound (non-numeric `age` never matches `$gte`). -/
def evalQuery (q : MongoQuery) (doc : Fields) : Bool :=
  (match q.country with
   | none => true
   | some c =>
     match addressCountry doc with
     | some (.vstr s) => s == c
     | _ => false) &&
  (match q.ageGte with
   | none => true
   | some a =>
     match alGet doc "age" with
     | some (.vint n) => decide (a ≤ n)
     | _ => false)

/-- `$set` of several top-level fields on a stored document. -/
def applySet (doc : Fields) (ud : Fields) : Fields :=
  ud.foldl (fun d kv => alSet d kv.1 kv.2) doc

/-! ## Python dynamic-semantics helpers (for the loosely-typed update body) -/

/-- `for key in v`: a dict yields its keys, a string its characters, a list
its elements; an int is not iterable. -/
def pyIterKeys : Value → Except String (List Value)
  | .vobj fs => .ok (fs.map fun kv => .vstr kv.1)
  | .vstr s => .ok (s.data.map fun c => .vstr (String.mk [c]))
  | .varr xs => .ok xs
  | .vint _ => .error "TypeError: 'int' object is not iterable"

/-- Python `k in s` for strings: substring test (the empty string is in
every string). -/
def strContains (s k : String) : Bool :=
  k.isEmpty || decide (2 ≤ (s.splitOn k).length)

/-- Python `k in v` for a string key `k`. -/
def pyContains (v : Value) (k : String) : Except String Bool :=
  match v with
  | .vobj fs => .ok (alGet fs k).isSome
  | .vstr s => .ok (strContains s k)
  | .varr xs => .ok (xs.contains (.vstr k))
  | .vint _ => .error "TypeError: argument of type 'int' is not iterable"

/-- Python `v[k]` for a string key `k`; `str` of a raised `KeyError` is the
quoted key. -/
def pyGetItem (v : Value) (k : String) : Except String Value :=
  match v with
  | .vobj fs =>
    match alGet fs k with
    | some x => .ok x
    | none => .error ("'" ++ k ++ "'")
  | .vstr _ => .error "TypeError: string indices must be integers"
  | .varr _ => .error "TypeError: list indices must be integers"
  | .vint _ => .error "TypeError: 'int' object is not subscriptable"

/-- Python `v.copy()` as used on `student.get('address', \x7b\x7d)`: only a
dict has `.copy`. -/
def dictCopy : Value → Except String Fields
  | .vobj fs => .ok fs
  | _ => .error "AttributeError: object has no attribute copy"

/-- Python `str(v)`, roughly (only used inside 400 detail messages). -/
def pyStr : Value → String
  | .vstr s => s
  | .vint n => toString n
  | .varr _ => "<list>"
  | .vobj _ => "<dict>"

/-! ## Request handlers (`routes.py`) -/

/-- The `try` body of `create_student`: subscript `name`, `age`, `address`
on the request body (first absent key raises `KeyError`) and run
`Student.__init__`. -/
def bodyToStudent (body : Fields) : Except String Student :=
  match alGet body "name", alGet body "age", alGet body "address" with
  | some n, some a, some ad => Student.init n a ad
  | none, _, _ => .error "'name'"
  | _, none, _ => .error "'age'"
  | _, _, none => .error "'address'"

/-- `POST /students`: on a construction failure (KeyError or ValueError)
answer 400 with `str(e)` and persist nothing; on success insert
`student.to_dict()` (storage assigns the id) and answer 201 with the id. -/
def create_student (body : Fields) (db : DB) : Resp × DB :=
  match bodyToStudent body with
  | .ok s =>
    let oid := genOid db.counter
    (.ok 201 (some (.vobj [("id", .vstr oid)])),
     ⟨db.docs ++ [(oid, s.to_dict)], db.counter + 1⟩)
  | .error e => (.httpError 400 e, db)

/-- Truthiness of `Optional[str]` (`if country:`). -/
def pyTruthyStrOpt : Option String → Bool
  | none => false
  | some s => s != ""

/-- The list comprehension's per-student projection
`{"name": student["name"], "age": student["age"]}`. -/
def projectListItem (doc : Fields) : Except String Value :=
  match alGet doc "name" with
  | none => .error "'name'"
  | some n =>
    match alGet doc "age" with
    | none => .error "'age'"
    | some a => .ok (.vobj [("name", n), ("age", a)])

/-- Shape the list response: project every matched document to
`name`/`age` (address omitted) and wrap in `{"data": [...]}`. -/
def listProject (docs : List Fields) : Resp :=
  match docs.mapM projectListItem with
  | .ok items => .ok 200 (some (.vobj [("data", .varr items)]))
  | .error e => .pyError e

/-- `GET /students`: build the filter (`country` only when truthy, `age`
whenever provided), `find` it, take at most 1000 results, project. -/
def list_students (country : Option String) (age : Option Int) (db : DB) : Resp :=
  let q0 : MongoQuery := ⟨none, none⟩
  let q1 := if pyTruthyStrOpt country then { q0 with country := country } else q0
  let q2 := match age with
            | some a => { q1 with ageGte := some a }
            | none => q1
  listProject (((db.docs.map Prod.snd).filter (evalQuery q2)).take 1000)

/-- `GET /students/{id}`: `ObjectId(id)` (uncaught `InvalidId` on a
malformed id), `find_one`, 404 when absent, else the document with `_id`
replaced by the string field `id`. -/
def fetch_student (id : String) (db : DB) : Resp :=
  match parseObjectId id with
  | .error e => .pyError e
  | .ok oid =>
    match alGet db.docs oid with
    | none => .httpError 404 "Student not found"
    | some doc => .ok 200 (some (.vobj (doc ++ [("id", .vstr oid)])))

/-- The rendering of the allowed top-level fields in 400 details. -/
def allowedTopDetail : String := "name, age, address"

/-- The rendering of the allowed address fields in 400 details. -/
def allowedAddrDetail : String := "city, country"

/-- The top-level validation loop of `update_student`: first body key
outside \x7bname, age, address\x7d, in body order. -/
def findBadKey : List String → Option String
  | [] => none
  | k :: rest =>
    if k = "name" ∨ k = "age" ∨ k = "address" then findBadKey rest else some k

/-- The address validation loop: first iterated key that is not the string
`city` or `country`. -/
def findBadAddrKey : List Value → Option Value
  | [] => none
  | k :: rest =>
    if k = Value.vstr "city" ∨ k = Value.vstr "country" then findBadAddrKey rest
    else some k

/-- The `if 'address' in student_update:` validation block: iterate the
address value and 400 on the first disallowed key. -/
def checkAddrKeys (body : Fields) : Except String (Option String) :=
  match alGet body "address" with
  | none => .ok none
  | some av =>
    match pyIterKeys av with
    | .error e => .error e
    | .ok ks =>
      match findBadAddrKey ks with
      | some k =>
        .ok (some ("Invalid address field: " ++ pyStr k ++
          ". Allowed fields are: " ++ allowedAddrDetail))
      | none => .ok none

/-- The scalar part of `update_data`: copy `name` and then `age` from the
body when provided. -/
def mkScalarUD (body : Fields) : Fields :=
  let ud0 : Fields := []
  let ud1 := match alGet body "name" with
             | some v => alSet ud0 "name" v
             | none => ud0
  match alGet body "age" with
  | some v => alSet ud1 "age" v
  | none => ud1

/-- The address merge of `update_student`: starting from the copied stored
address `a0`, overwrite `city` and then `country` when the body's address
value contains them (`in` / subscript with Python dynamic semantics). -/
def mergeAddress (av : Value) (a0 : Fields) : Except String Fields :=
  match pyContains av "city" with
  | .error e => .error e
  | .ok hasCity =>
    let step1 : Except String Fields :=
      if hasCity then
        match pyGetItem av "city" with
        | .ok cv => .ok (alSet a0 "city" cv)
        | .error e => .error e
      else .ok a0
    match step1 with
    | .error e => .error e
    | .ok a1 =>
      match pyContains av "country" with
      | .error e => .error e
      | .ok hasCountry =>
        if hasCountry then
          match pyGetItem av "country" with
          | .ok kv => .ok (alSet a1 "country" kv)
          | .error e => .error e
        else .ok a1

/-- Build `update_data` from the validated body and the loaded document:
copy provided `name`/`age`; for `address`, start from a copy of the stored
address (`student.get('address', ...).copy()`) and overwrite the provided
`city`/`country` sub-fields. -/
def mkUpdateData (body doc : Fields) : Except String Fields :=
  let ud2 := mkScalarUD body
  match alGet body "address" with
  | none => .ok ud2
  | some av =>
    let base : Except String Fields :=
      match alGet doc "address" with
      | none => .ok []
      | some sv => dictCopy sv
    match base with
    | .error e => .error e
    | .ok a0 =>
      match mergeAddress av a0 with
      | .error e => .error e
      | .ok a2 => .ok (alSet ud2 "address" (.vobj a2))

/-- `PATCH /students/{id}`: structural validation of the body (before any
storage access), then `find_one` (`ObjectId(id)` parsed here), then the
merge and a `$set` write; `modified_count == 0` — id unmatched or the
merged document identical to the stored one — answers 404, else 204 with
no body. An empty `$set` is rejected by the server (uncaught write error). -/
def update_student (id : String) (body : Fields) (db : DB) : Resp × DB :=
  match findBadKey (body.map Prod.fst) with
  | some k =>
    (.httpError 400 ("Invalid field: " ++ k ++ ". Allowed fields are: " ++
      allowedTopDetail), db)
  | none =>
    match checkAddrKeys body with
    | .error e => (.pyError e, db)
    | .ok (some d) => (.httpError 400 d, db)
    | .ok none =>
      match parseObjectId id with
      | .error e => (.pyError e, db)
      | .ok oid =>
        match alGet db.docs oid with
        | none => (.httpError 404 "Student not found", db)
        | some doc =>
          match mkUpdateData body doc with
          | .error e => (.pyError e, db)
          | .ok ud =>
            if ud.isEmpty then (.pyError "WriteError: '$set' is empty", db)
            else
              let newDoc := applySet doc ud
              let db' : DB := ⟨alSet db.docs oid newDoc, db.counter⟩
              if newDoc = doc then (.httpError 404 "Student not found", db')
              else (.ok 204 none, db')

/-- `DELETE /students/{id}`: `ObjectId(id)` (uncaught `InvalidId` on a
malformed id), `delete_one`; 404 when nothing was deleted, else 200 with
an empty object body. -/
def delete_student (id : String) (db : DB) : Resp × DB :=
  match parseObjectId id with
  | .error e => (.pyError e, db)
  | .ok oid =>
    match alGet db.docs oid with
    | none => (.httpError 404 "Student not found", db)
    | some _ => (.ok 200 (some (.vobj [])), ⟨alErase db.docs oid, db.counter⟩)

/-- A state-mutating operation of the service. -/
inductive Op where
  | create (body : Fields)
  | update (oid : String) (body : Fields)

/-- The storage effect of one operation. -/
def applyOp (db : DB) : Op → DB
  | .create b => (create_student b db).2
  | .update i b => (update_student i b db).2

/-- The storage state after a sequence of create/update operations. -/
def runOps (db : DB) (ops : List Op) : DB := ops.foldl applyOp db

/-! ## Specification-side predicates (stated from the spec's words, used in
theorem statements and compared against handler behaviour) -/

/-- The spec's list `age` filter: the record's `age` is a number `≥` the
bound. -/
def specAgeGe (a : Int) (d : Fields) : Bool :=
  match alGet d "age" with
  | some (.vint n) => decide (a ≤ n)
  | _ => false

/-- The spec's list `country` filter: the record's `address.country`
equals the filter string. -/
def specCountryIs (c : String) (d : Fields) : Bool :=
  match addressCountry d with
  | some (.vstr s) => s == c
  | _ => false

/-- Present and a non-empty string. -/
def nonEmptyStr : Option Value → Bool
  | some (.vstr s) => s != ""
  | _ => false

/-- Present and a non-negative integer. -/
def nonNegInt : Option Value → Bool
  | some (.vint n) => decide (0 ≤ n)
  | _ => false

/-- The spec's address invariant: non-empty string `city` and `country`. -/
def addrValid (a : Fields) : Bool :=
  nonEmptyStr (alGet a "city") && nonEmptyStr (alGet a "country")

/-- Present, an object, and a valid address. -/
def validAddrVal : Option Value → Bool
  | some (.vobj a) => addrValid a
  | _ => false

/-- The spec's student invariant on a stored document: `name` a non-empty
string, `age` an integer `≥ 0`, `address` present and itself valid. -/
def docValid (d : Fields) : Bool :=
  nonEmptyStr (alGet d "name") && nonNegInt (alGet d "age") &&
    validAddrVal (alGet d "address")

/-- The invariant over the whole collection. -/
def dbValid (db : DB) : Bool := db.docs.all fun p => docValid p.2

/-- An invariant-respecting value for one updatable top-level field. -/
def fieldGood (k : String) (v : Value) : Bool :=
  if k = "name" then nonEmptyStr (some v)
  else if k = "age" then nonNegInt (some v)
  else if k = "address" then validAddrVal (some v)
  else false

/-- Absent, or a non-empty string. -/
def goodOptStr : Option Value → Bool
  | none => true
  | some v => nonEmptyStr (some v)

/-- Absent, or a non-negative integer. -/
def goodOptInt : Option Value → Bool
  | none => true
  | some v => nonNegInt (some v)

/-- Absent, or a string (possibly empty). -/
def strOrAbsent : Option Value → Bool
  | none => true
  | some (.vstr _) => true
  | some _ => false

/-- A create body whose address sub-fields, when present, are strings
(construction itself already forces them non-empty). -/
def goodCreateBody (b : Fields) : Bool :=
  match alGet b "address" with
  | some (.vobj a) => strOrAbsent (alGet a "city") && strOrAbsent (alGet a "country")
  | _ => true

/-- An update body all of whose provided fields are well-typed and
value-valid (the handler itself never checks this). -/
def goodUpdateBody (b : Fields) : Bool :=
  goodOptStr (alGet b "name") &&
  goodOptInt (alGet b "age") &&
  (match alGet b "address" with
   | none => true
   | some (.vobj a) => goodOptStr (alGet a "city") && goodOptStr (alGet a "country")
   | some _ => false)

/-- Value-validity of an operation's body. -/
def goodOp : Op → Bool
  | .create b => goodCreateBody b
  | .update _ b => goodUpdateBody b

/-! ## Concrete data for witnesses -/

/-- Ann's address as stored. -/
def annAddr : Fields := [("city", .vstr "Pune"), ("country", .vstr "IN")]

/-- A valid create body. -/
def bodyAnn : Fields :=
  [("name", .vstr "Ann"), ("age", .vint 20), ("address", .vobj annAddr)]

/-- Ann's document as stored by `create_student`. -/
def annDoc : Fields :=
  [("name", .vstr "Ann"), ("age", .vint 20), ("address", .vobj annAddr)]

/-- The database after creating Ann in an empty store. -/
def dbAnn : DB := (create_student bodyAnn emptyDB).2

/-- The spec §8 example collection: A(age 20, IN), B(age 25, IN),
C(age 25, US). -/
def dbABC : DB :=
  (create_student
    [("name", .vstr "C"), ("age", .vint 25),
     ("address", .vobj [("city", .vstr "Austin"), ("country", .vstr "US")])]
    (create_student
      [("name", .vstr "B"), ("age", .vint 25),
       ("address", .vobj [("city", .vstr "Mumbai"), ("country", .vstr "IN")])]
      (create_student
        [("name", .vstr "A"), ("age", .vint 20),
         ("address", .vobj [("city", .vstr "Pune"), ("country", .vstr "IN")])]
        emptyDB).2).2).2

/-! ## Association-list lemmas -/

theorem alGet_alSet_self {α : Type} (l : List (String × α)) (k : String) (v : α) :
    alGet (alSet l k v) k = some v := by
  induction l with
  | nil => simp [alSet, alGet]
  | cons p rest ih =>
    obtain ⟨k0, v0⟩ := p
    by_cases h : k0 = k <;> simp [alSet, alGet, h, ih]

theorem alGet_alSet_ne {α : Type} (l : List (String × α)) (k k' : String) (v : α)
    (h : k' ≠ k) : alGet (alSet l k v) k' = alGet l k' := by
  induction l with
  | nil => simp [alSet, alGet, Ne.symm h]
  | cons p rest ih =>
    obtain ⟨k0, v0⟩ := p
    by_cases h0 : k0 = k <;>
      simp [alSet, alGet, h0, Ne.symm h, ih]

theorem mem_alSet {α : Type} (l : List (String × α)) (k : String) (v : α)
    (p : String × α) (hp : p ∈ alSet l k v) : p ∈ l ∨ p = (k, v) := by
  induction l with
  | nil => simp [alSet] at hp; simp [hp]
  | cons q rest ih =>
    obtain ⟨k0, v0⟩ := q
    by_cases h0 : k0 = k
    · simp only [alSet, if_pos h0, List.mem_cons] at hp
      rcases hp with h | h
      · right; exact h
      · left; simp [h]
    · simp only [alSet, if_neg h0, List.mem_cons] at hp
      rcases hp with h | h
      · left; simp [h]
      · rcases ih h with h' | h'
        · left; simp [h']
        · right; exact h'

theorem alGet_mem {α : Type} (l : List (String × α)) (k : String) (v : α)
    (h : alGet l k = some v) : (k, v) ∈ l := by
  induction l with
  | nil => simp [alGet] at h
  | cons p rest ih =>
    obtain ⟨k0, v0⟩ := p
    by_cases h0 : k0 = k
    · subst h0
      simp [alGet] at h
      simp [h]
    · simp only [alGet, if_neg h0] at h
      simp [ih h]

theorem applySet_cons (d : Fields) (k : String) (v : Value) (rest : Fields) :
    applySet d ((k, v) :: rest) = applySet (alSet d k v) rest := rfl

/-! ## Claim C2 — malformed identifiers -/

/-- C2: the spec requires malformed identifiers to be rejected with a
client-input (400-class) error, but on a malformed id (`"abc"`) all three
id-taking handlers let `bson.errors.InvalidId` escape uncaught — a server
crash surfaced as a 5xx, not an `HTTPException 400`. This exhibits the
divergence at the concrete failing input. -/
theorem claim_C2_malformed_id_uncaught :
    fetch_student "abc" emptyDB
      = .pyError "InvalidId: 'abc' is not a valid ObjectId" ∧
    update_student "abc" [("name", .vstr "Bob")] emptyDB
      = (.pyError "InvalidId: 'abc' is not a valid ObjectId", emptyDB) ∧
    delete_student "abc" emptyDB
      = (.pyError "InvalidId: 'abc' is not a valid ObjectId", emptyDB) := by
  refine ⟨rfl, rfl, rfl⟩

/-! ## Claim C6 — construction and create -/

/-- C6: `Student.__init__` fails on an empty name, a negative age and an
empty city, succeeds on valid input; and whenever the construction step of
`create_student` fails, the handler answers 400 with the exception text
and leaves the store untouched (no insert). -/
theorem claim_C6_construct_and_create (db : DB) (body : Fields) (e : String)
    (hfail : bodyToStudent body = .error e) :
    Student.init (.vstr "") (.vint 5)
        (.vobj [("city", .vstr "A"), ("country", .vstr "B")])
      = .error "Name must be a non-empty string" ∧
    Student.init (.vstr "Ann") (.vint (-1))
        (.vobj [("city", .vstr "A"), ("country", .vstr "B")])
      = .error "Age must be a non-negative integer" ∧
    Student.init (.vstr "Ann") (.vint 5)
        (.vobj [("city", .vstr ""), ("country", .vstr "B")])
      = .error "City and country are required" ∧
    Student.init (.vstr "Ann") (.vint 5)
        (.vobj [("city", .vstr "A"), ("country", .vstr "B")])
      = .ok ⟨"Ann", 5, ⟨.vstr "A", .vstr "B"⟩⟩ ∧
    create_student body db = (.httpError 400 e, db) := by
  refine ⟨rfl, rfl, rfl, rfl, ?_⟩
  simp [create_student, hfail]

/-- C6 witness: a body missing `name` makes construction raise
`KeyError('name')` and create answers 400 without inserting. -/
theorem claim_C6_witness :
    Student.init (.vstr "") (.vint 5)
        (.vobj [("city", .vstr "A"), ("country", .vstr "B")])
      = .error "Name must be a non-empty string" ∧
    Student.init (.vstr "Ann") (.vint (-1))
        (.vobj [("city", .vstr "A"), ("country", .vstr "B")])
      = .error "Age must be a non-negative integer" ∧
    Student.init (.vstr "Ann") (.vint 5)
        (.vobj [("city", .vstr ""), ("country", .vstr "B")])
      = .error "City and country are required" ∧
    Student.init (.vstr "Ann") (.vint 5)
        (.vobj [("city", .vstr "A"), ("country", .vstr "B")])
      = .ok ⟨"Ann", 5, ⟨.vstr "A", .vstr "B"⟩⟩ ∧
    create_student [] emptyDB = (.httpError 400 "'name'", emptyDB) :=
  claim_C6_construct_and_create emptyDB [] "'name'" rfl

/-! ## Claim C9 — serialization round-trip -/

/-- C9: for every valid student (non-empty name, non-negative age,
non-empty string city and country), `from_dict (to_dict s)` reproduces `s`
exactly. -/
theorem claim_C9_roundtrip (s : Student) (c k : String)
    (hn : s.name ≠ "") (ha : 0 ≤ s.age)
    (hc : s.address.city = .vstr c) (hc' : c ≠ "")
    (hk : s.address.country = .vstr k) (hk' : k ≠ "") :
    Student.from_dict (Student.to_dict s) = .ok s := by
  obtain ⟨nm, ag, ⟨ci, co⟩⟩ := s
  simp only at hc hk
  subst hc hk
  simp [Student.from_dict, Student.to_dict, Address.to_dict, alGet,
    Student.init, Address.init, Value.truthy, hn, hc', hk',
    not_lt_of_le ha]

/-- C9 witness at a concrete valid student. -/
theorem claim_C9_roundtrip_witness :
    Student.from_dict (Student.to_dict ⟨"Ann", 5, ⟨.vstr "A", .vstr "B"⟩⟩)
      = .ok ⟨"Ann", 5, ⟨.vstr "A", .vstr "B"⟩⟩ :=
  claim_C9_roundtrip ⟨"Ann", 5, ⟨.vstr "A", .vstr "B"⟩⟩ "A" "B"
    (by decide) (by decide) rfl (by decide) rfl (by decide)

/-! ## Claim C10 — empty-string country filter -/

/-- C10: calling the list operation with `country = ""` applies no country
filter at all (same result as no country parameter, for every store and
age parameter), while a provided `age` — including `age = 0` — is still
applied as the numeric `≥` filter. -/
theorem claim_C10_empty_country (db : DB) (age : Option Int) :
    list_students (some "") age db = list_students none age db ∧
    list_students (some "") (some 0) db
      = listProject (((db.docs.map Prod.snd).filter (specAgeGe 0)).take 1000) := by
  constructor
  · rfl
  · have hf : evalQuery ⟨none, some 0⟩ = specAgeGe 0 := by
      funext d
      simp [evalQuery, specAgeGe]
    calc list_students (some "") (some 0) db
        = listProject (((db.docs.map Prod.snd).filter
            (evalQuery ⟨none, some 0⟩)).take 1000) := rfl
      _ = listProject (((db.docs.map Prod.snd).filter (specAgeGe 0)).take 1000) := by
          rw [hf]

/-! ## Claim C8 — not-found consistency -/

/-- C8: a well-formed identifier that matches no stored record makes
fetch, update (with a structurally valid body) and delete all answer 404
with the fixed detail "Student not found", leaving storage untouched;
since a deleted id no longer resolves, a second delete of the same id is
an instance of this statement. -/
theorem claim_C8_notfound_consistency (db : DB) (ids oid : String) (body : Fields)
    (hp : parseObjectId ids = .ok oid)
    (habs : alGet db.docs oid = none)
    (hk : findBadKey (body.map Prod.fst) = none)
    (ha : checkAddrKeys body = .ok none) :
    fetch_student ids db = .httpError 404 "Student not found" ∧
    update_student ids body db = (.httpError 404 "Student not found", db) ∧
    delete_student ids db = (.httpError 404 "Student not found", db) := by
  refine ⟨?_, ?_, ?_⟩
  · simp [fetch_student, hp, habs]
  · simp [update_student, hk, ha, hp, habs]
  · simp [delete_student, hp, habs]

/-- C8 witness: after deleting Ann, her id is well-formed but absent, and
the second delete (as well as fetch and update) answers 404 and leaves the
store unchanged. -/
theorem claim_C8_witness :
    fetch_student (genOid 0) (delete_student (genOid 0) dbAnn).2
      = .httpError 404 "Student not found" ∧
    update_student (genOid 0) [("name", .vstr "Bob")] (delete_student (genOid 0) dbAnn).2
      = (.httpError 404 "Student not found", (delete_student (genOid 0) dbAnn).2) ∧
    delete_student (genOid 0) (delete_student (genOid 0) dbAnn).2
      = (.httpError 404 "Student not found", (delete_student (genOid 0) dbAnn).2) :=
  claim_C8_notfound_consistency (delete_student (genOid 0) dbAnn).2 (genOid 0) (genOid 0)
    [("name", .vstr "Bob")] rfl rfl rfl rfl

/-! ## Claim C7 — list filters, cap and projection -/

theorem evalQuery_both (c : String) (a : Int) (d : Fields) :
    evalQuery ⟨some c, some a⟩ d = (specCountryIs c d && specAgeGe a d) := by
  simp [evalQuery, specCountryIs, specAgeGe]

/-- C7: with both filters present the list operation returns exactly the
stored records whose `address.country` equals the filter and whose age is
`≥` the bound (logical AND), capped at 1000; with no filter it returns all
records capped at 1000; in both cases each record is projected to
name/age only (`listProject`), the address omitted. -/
theorem claim_C7_list_filters (db : DB) (c : String) (a : Int) (hc : c ≠ "") :
    list_students (some c) (some a) db
      = listProject (((db.docs.map Prod.snd).filter
          (fun d => specCountryIs c d && specAgeGe a d)).take 1000) ∧
    list_students none none db
      = listProject ((db.docs.map Prod.snd).take 1000) := by
  constructor
  · have hb : pyTruthyStrOpt (some c) = true := by simp [pyTruthyStrOpt, hc]
    have h1 : list_students (some c) (some a) db
        = listProject (((db.docs.map Prod.snd).filter
            (evalQuery ⟨some c, some a⟩)).take 1000) := by
      simp [list_students, hb]
    rw [h1, funext (evalQuery_both c a)]
  · have h2 : (db.docs.map Prod.snd).filter (evalQuery ⟨none, none⟩)
        = db.docs.map Prod.snd := by
      simp [evalQuery]
    calc list_students none none db
        = listProject (((db.docs.map Prod.snd).filter
            (evalQuery ⟨none, none⟩)).take 1000) := rfl
      _ = listProject ((db.docs.map Prod.snd).take 1000) := by rw [h2]

/-- C7 witness at the spec's example collection (A 20/IN, B 25/IN,
C 25/US). -/
theorem claim_C7_witness :
    list_students (some "IN") (some 22) dbABC
      = listProject (((dbABC.docs.map Prod.snd).filter
          (fun d => specCountryIs "IN" d && specAgeGe 22 d)).take 1000) ∧
    list_students none none dbABC
      = listProject ((dbABC.docs.map Prod.snd).take 1000) :=
  claim_C7_list_filters dbABC "IN" 22 (by decide)

/-- At the spec's example collection, `List(country=IN, age=22)` indeed
returns only B. -/
theorem dbABC_list_only_B :
    list_students (some "IN") (some 22) dbABC
      = .ok 200 (some (.vobj [("data",
          .varr [.vobj [("name", .vstr "B"), ("age", .vint 25)]])])) := rfl

/-! ## Shared unfolding of a reached `$set` write in `update_student` -/

theorem update_student_write (db : DB) (ids oid : String) (body doc ud : Fields)
    (hk : findBadKey (body.map Prod.fst) = none)
    (ha : checkAddrKeys body = .ok none)
    (hp : parseObjectId ids = .ok oid)
    (hdoc : alGet db.docs oid = some doc)
    (hud : mkUpdateData body doc = .ok ud)
    (hne : ud ≠ []) :
    update_student ids body db =
      if applySet doc ud = doc then
        (.httpError 404 "Student not found",
         ⟨alSet db.docs oid (applySet doc ud), db.counter⟩)
      else
        (.ok 204 none, ⟨alSet db.docs oid (applySet doc ud), db.counter⟩) := by
  have hemp : ud.isEmpty = false := by
    cases ud with
    | nil => exact absurd rfl hne
    | cons x xs => rfl
  simp only [update_student, hk, ha, hp, hdoc, hud, hemp]
  rfl

/-! ## Claim C4 — update signals not-found iff the write modified nothing -/

/-- C4: once structural validation passed, the record was loaded and a
non-empty `$set` was issued, the update answers 404 ("Student not found")
exactly when the write reports no modification — i.e. when the merged
document equals the stored one — and otherwise succeeds as 204 with no
body; in both cases the (possibly identical) merged document is what is
stored afterwards. -/
theorem claim_C4_update_404_iff_unmodified (db : DB) (ids oid : String)
    (body doc ud : Fields)
    (hk : findBadKey (body.map Prod.fst) = none)
    (ha : checkAddrKeys body = .ok none)
    (hp : parseObjectId ids = .ok oid)
    (hdoc : alGet db.docs oid = some doc)
    (hud : mkUpdateData body doc = .ok ud)
    (hne : ud ≠ []) :
    update_student ids body db =
      if applySet doc ud = doc then
        (.httpError 404 "Student not found",
         ⟨alSet db.docs oid (applySet doc ud), db.counter⟩)
      else
        (.ok 204 none, ⟨alSet db.docs oid (applySet doc ud), db.counter⟩) :=
  update_student_write db ids oid body doc ud hk ha hp hdoc hud hne

/-- C4 witness: updating Ann's name to Bob reaches the write with a
non-empty `$set`; the theorem instantiates (and the `if` resolves to the
204 branch since the document changes). -/
theorem claim_C4_witness :
    update_student (genOid 0) [("name", .vstr "Bob")] dbAnn =
      if applySet annDoc [("name", .vstr "Bob")] = annDoc then
        (.httpError 404 "Student not found",
         ⟨alSet dbAnn.docs (genOid 0) (applySet annDoc [("name", .vstr "Bob")]),
          dbAnn.counter⟩)
      else
        (.ok 204 none,
         ⟨alSet dbAnn.docs (genOid 0) (applySet annDoc [("name", .vstr "Bob")]),
          dbAnn.counter⟩) :=
  claim_C4_update_404_iff_unmodified dbAnn (genOid 0) (genOid 0)
    [("name", .vstr "Bob")] annDoc [("name", .vstr "Bob")]
    rfl rfl rfl rfl rfl (by decide)

/-! ## Claim C1 — partial address merge preserves the untouched field -/

/-- C1: for a stored record whose address object has a `country` value,
a partial update whose body provides only `address.city = xv`, when it
succeeds (204), stores the address obtained by overwriting `city` on the
existing stored address — so the new address has `city = xv` and the old
`country` unchanged. -/
theorem claim_C1_address_merge (db : DB) (ids oid : String)
    (doc a : Fields) (kv xv : Value)
    (hp : parseObjectId ids = .ok oid)
    (hdoc : alGet db.docs oid = some doc)
    (haddr : alGet doc "address" = some (.vobj a))
    (hk : alGet a "country" = some kv)
    (hok : (update_student ids [("address", .vobj [("city", xv)])] db).1
      = .ok 204 none) :
    (update_student ids [("address", .vobj [("city", xv)])] db).2
      = ⟨alSet db.docs oid (alSet doc "address" (.vobj (alSet a "city" xv))),
         db.counter⟩ ∧
    alGet (alSet a "city" xv) "city" = some xv ∧
    alGet (alSet a "city" xv) "country" = some kv := by
  have hbk : findBadKey ([("address", Value.vobj [("city", xv)])].map Prod.fst)
      = none := rfl
  have hca : checkAddrKeys [("address", Value.vobj [("city", xv)])] = .ok none := by
    simp [checkAddrKeys, pyIterKeys, findBadAddrKey, alGet]
  have hud : mkUpdateData [("address", Value.vobj [("city", xv)])] doc
      = .ok [("address", .vobj (alSet a "city" xv))] := by
    simp [mkUpdateData, mkScalarUD, mergeAddress, haddr, dictCopy,
      pyContains, pyGetItem, alGet, alSet]
  have hw := update_student_write db ids oid _ doc _ hbk hca hp hdoc hud (by simp)
  have happ : applySet doc [("address", Value.vobj (alSet a "city" xv))]
      = alSet doc "address" (.vobj (alSet a "city" xv)) := rfl
  rw [happ] at hw
  by_cases hnd : alSet doc "address" (.vobj (alSet a "city" xv)) = doc
  · rw [hw, if_pos hnd] at hok
    simp at hok
  · rw [hw, if_neg hnd]
    refine ⟨rfl, alGet_alSet_self _ _ _, ?_⟩
    rw [alGet_alSet_ne _ _ _ _ (by decide)]
    exact hk

/-- C1 witness: Ann's stored address is Pune/IN; updating only the city to
Mumbai succeeds and the stored address becomes Mumbai/IN. -/
theorem claim_C1_witness :
    (update_student (genOid 0) [("address", .vobj [("city", .vstr "Mumbai")])] dbAnn).2
      = ⟨alSet dbAnn.docs (genOid 0)
          (alSet annDoc "address" (.vobj (alSet annAddr "city" (.vstr "Mumbai")))),
         dbAnn.counter⟩ ∧
    alGet (alSet annAddr "city" (.vstr "Mumbai")) "city" = some (.vstr "Mumbai") ∧
    alGet (alSet annAddr "city" (.vstr "Mumbai")) "country" = some (.vstr "IN") :=
  claim_C1_address_merge dbAnn (genOid 0) (genOid 0) annDoc annAddr
    (.vstr "IN") (.vstr "Mumbai") rfl rfl rfl rfl (by
      rw [update_student_write dbAnn (genOid 0) (genOid 0)
          [("address", .vobj [("city", .vstr "Mumbai")])] annDoc
          [("address", .vobj [("city", .vstr "Mumbai"), ("country", .vstr "IN")])]
          rfl (by simp [checkAddrKeys, pyIterKeys, findBadAddrKey, alGet]) rfl rfl
          (by simp [mkUpdateData, mkScalarUD, mergeAddress, pyContains, pyGetItem,
            dictCopy, alGet, alSet, annDoc, annAddr]) (by simp),
        if_neg (by simp [applySet, alSet, annDoc, annAddr])])

/-! ## Claim C5 — structural validation of the update body -/

theorem findBadKey_eq_none (ks : List String) :
    findBadKey ks = none ↔ ∀ k ∈ ks, k = "name" ∨ k = "age" ∨ k = "address" := by
  induction ks with
  | nil => simp [findBadKey]
  | cons k rest ih =>
    by_cases h : k = "name" ∨ k = "age" ∨ k = "address" <;>
      simp [findBadKey, h, ih]

theorem findBadAddrKey_eq_none (ks : List Value) :
    findBadAddrKey ks = none ↔
      ∀ k ∈ ks, k = Value.vstr "city" ∨ k = Value.vstr "country" := by
  induction ks with
  | nil => simp [findBadAddrKey]
  | cons k rest ih =>
    by_cases h : k = Value.vstr "city" ∨ k = Value.vstr "country" <;>
      simp [findBadAddrKey, h, ih]

/-- C5: an update body with a top-level key outside name/age/address, or
whose address object has a key outside city/country, is rejected with a
400 before the record is loaded — for every store and identifier (even a
malformed one, since validation precedes the id parse), and the store is
returned unchanged. -/
theorem claim_C5_unknown_field_rejected (db : DB) (ids : String) (body : Fields)
    (h : (∃ k ∈ body.map Prod.fst, k ≠ "name" ∧ k ≠ "age" ∧ k ≠ "address") ∨
         (∃ a, alGet body "address" = some (.vobj a) ∧
           ∃ k ∈ a.map Prod.fst, k ≠ "city" ∧ k ≠ "country")) :
    ∃ d, update_student ids body db = (.httpError 400 d, db) := by
  cases hfk : findBadKey (body.map Prod.fst) with
  | some k =>
    exact ⟨"Invalid field: " ++ k ++ ". Allowed fields are: " ++ allowedTopDetail,
      by simp [update_student, hfk]⟩
  | none =>
    rcases h with ⟨k, hmem, h1, h2, h3⟩ | ⟨a, haddr, k, hmem, h1, h2⟩
    · rcases (findBadKey_eq_none _).1 hfk k hmem with h' | h' | h' <;> simp_all
    · cases hfa : findBadAddrKey (a.map fun kv => Value.vstr kv.1) with
      | none =>
        have hall := (findBadAddrKey_eq_none _).1 hfa (Value.vstr k) (by
          rcases List.mem_map.1 hmem with ⟨p, hp, hk⟩
          exact List.mem_map.2 ⟨p, hp, by rw [hk]⟩)
        rcases hall with h' | h' <;> simp_all
      | some v =>
        refine ⟨"Invalid address field: " ++ pyStr v ++
          ". Allowed fields are: " ++ allowedAddrDetail, ?_⟩
        have hca : checkAddrKeys body = .ok (some ("Invalid address field: " ++
            pyStr v ++ ". Allowed fields are: " ++ allowedAddrDetail)) := by
          simp [checkAddrKeys, haddr, pyIterKeys, hfa]
        simp [update_student, hfk, hca]

/-- C5 witness: the spec's example `Update(id, \x7bnickname: "x"\x7d)` is
rejected with a 400 and Ann's record is untouched. -/
theorem claim_C5_witness :
    ∃ d, update_student (genOid 0) [("nickname", .vstr "x")] dbAnn
      = (.httpError 400 d, dbAnn) :=
  claim_C5_unknown_field_rejected dbAnn (genOid 0) [("nickname", .vstr "x")]
    (Or.inl ⟨"nickname", by decide, by decide, by decide, by decide⟩)

/-! ## Claim C3 — invariant preservation machinery -/

theorem all_alSet {α : Type} (P : α → Bool) (l : List (String × α)) (k : String)
    (v : α) (hl : (l.all fun p => P p.2) = true) (hv : P v = true) :
    ((alSet l k v).all fun p => P p.2) = true := by
  simp only [List.all_eq_true] at *
  intro p hp
  rcases mem_alSet _ _ _ _ hp with h | h
  · exact hl p h
  · rw [h]
    exact hv

theorem docValid_alSet (d : Fields) (k : String) (v : Value)
    (hd : docValid d = true) (hf : fieldGood k v = true) :
    docValid (alSet d k v) = true := by
  simp only [docValid] at hd
  rw [Bool.and_eq_true, Bool.and_eq_true] at hd
  obtain ⟨⟨h1, h2⟩, h3⟩ := hd
  by_cases hk1 : k = "name"
  · subst hk1
    simp [fieldGood] at hf
    simp only [docValid, Bool.and_eq_true, alGet_alSet_self d "name" v,
      alGet_alSet_ne d "name" "age" v (by decide),
      alGet_alSet_ne d "name" "address" v (by decide)]
    exact ⟨⟨hf, h2⟩, h3⟩
  · by_cases hk2 : k = "age"
    · subst hk2
      simp [fieldGood] at hf
      simp only [docValid, Bool.and_eq_true, alGet_alSet_self d "age" v,
        alGet_alSet_ne d "age" "name" v (by decide),
        alGet_alSet_ne d "age" "address" v (by decide)]
      exact ⟨⟨h1, hf⟩, h3⟩
    · by_cases hk3 : k = "address"
      · subst hk3
        simp [fieldGood] at hf
        simp only [docValid, Bool.and_eq_true, alGet_alSet_self d "address" v,
          alGet_alSet_ne d "address" "name" v (by decide),
          alGet_alSet_ne d "address" "age" v (by decide)]
        exact ⟨⟨h1, h2⟩, hf⟩
      · simp only [fieldGood, if_neg hk1, if_neg hk2, if_neg hk3] at hf
        exact absurd hf (by simp)

theorem docValid_applySet (ud : Fields) (d : Fields)
    (hd : docValid d = true) (hud : ∀ kv ∈ ud, fieldGood kv.1 kv.2 = true) :
    docValid (applySet d ud) = true := by
  induction ud generalizing d with
  | nil => simpa [applySet] using hd
  | cons kv rest ih =>
    obtain ⟨k, v⟩ := kv
    rw [applySet_cons]
    exact ih (alSet d k v)
      (docValid_alSet d k v hd (hud (k, v) (by simp)))
      (fun p hp => hud p (by simp [hp]))

theorem addrValid_alSet_city (a : Fields) (cv : Value)
    (hc : nonEmptyStr (some cv) = true) (ha : addrValid a = true) :
    addrValid (alSet a "city" cv) = true := by
  simp only [addrValid, Bool.and_eq_true] at *
  exact ⟨by rw [alGet_alSet_self]; exact hc,
    by rw [alGet_alSet_ne _ _ _ _ (by decide)]; exact ha.2⟩

theorem addrValid_alSet_country (a : Fields) (kv : Value)
    (hk : nonEmptyStr (some kv) = true) (ha : addrValid a = true) :
    addrValid (alSet a "country" kv) = true := by
  simp only [addrValid, Bool.and_eq_true] at *
  exact ⟨by rw [alGet_alSet_ne _ _ _ _ (by decide)]; exact ha.1,
    by rw [alGet_alSet_self]; exact hk⟩

theorem mergeAddress_valid (ab a0 a2 : Fields)
    (ha0 : addrValid a0 = true)
    (hc : goodOptStr (alGet ab "city") = true)
    (hk : goodOptStr (alGet ab "country") = true)
    (h : mergeAddress (.vobj ab) a0 = .ok a2) :
    addrValid a2 = true := by
  simp only [mergeAddress, pyContains, pyGetItem] at h
  rcases hci : alGet ab "city" with _ | cv <;> rw [hci] at h <;>
    rcases hco : alGet ab "country" with _ | kv <;> rw [hco] at h <;>
      simp only [Option.isSome_none, Option.isSome_some, if_pos rfl,
        Bool.false_eq_true, if_false, if_true] at h
  · simp only [Except.ok.injEq] at h
    rw [← h]
    exact ha0
  · rw [hco] at hk
    simp only [goodOptStr] at hk
    simp only [Except.ok.injEq] at h
    rw [← h]
    exact addrValid_alSet_country a0 kv hk ha0
  · rw [hci] at hc
    simp only [goodOptStr] at hc
    simp only [Except.ok.injEq] at h
    rw [← h]
    exact addrValid_alSet_city a0 cv hc ha0
  · rw [hci] at hc
    rw [hco] at hk
    simp only [goodOptStr] at hc hk
    simp only [Except.ok.injEq] at h
    rw [← h]
    exact addrValid_alSet_country _ kv hk (addrValid_alSet_city a0 cv hc ha0)

theorem mkScalarUD_good (body : Fields)
    (hn : goodOptStr (alGet body "name") = true)
    (ha : goodOptInt (alGet body "age") = true) :
    ∀ kv ∈ mkScalarUD body, fieldGood kv.1 kv.2 = true := by
  intro kv hkv
  simp only [mkScalarUD] at hkv
  rcases hgn : alGet body "name" with _ | nv <;> rw [hgn] at hkv hn <;>
    rcases hga : alGet body "age" with _ | av <;> rw [hga] at hkv ha
  · simp at hkv
  · simp [alSet] at hkv
    rw [hkv]
    simpa [fieldGood, goodOptInt] using ha
  · simp [alSet] at hkv
    rw [hkv]
    simpa [fieldGood, goodOptStr] using hn
  · simp [alSet] at hkv
    rcases hkv with h | h <;> rw [h]
    · simpa [fieldGood, goodOptStr] using hn
    · simpa [fieldGood, goodOptInt] using ha

theorem addressInit_ok (c k : Option Value) (ad : Address)
    (h : Address.init c k = .ok ad) :
    ∃ cv kv, c = some cv ∧ k = some kv ∧ cv.truthy = true ∧ kv.truthy = true ∧
      ad = ⟨cv, kv⟩ := by
  cases c with
  | none => simp [Address.init] at h
  | some cv =>
    cases k with
    | none => simp [Address.init] at h
    | some kv =>
      simp only [Address.init] at h
      by_cases ht : (cv.truthy && kv.truthy) = true
      · rw [if_pos ht] at h
        simp only [Except.ok.injEq] at h
        rw [Bool.and_eq_true] at ht
        exact ⟨cv, kv, rfl, rfl, ht.1, ht.2, h.symm⟩
      · rw [if_neg ht] at h
        simp at h

theorem studentInit_ok (n a ad : Value) (s : Student)
    (h : Student.init n a ad = .ok s) :
    ∃ nm ag fs, n = .vstr nm ∧ nm ≠ "" ∧ a = .vint ag ∧ ¬ag < 0 ∧
      ad = .vobj fs ∧
      Address.init (alGet fs "city") (alGet fs "country") = .ok s.address ∧
      s.name = nm ∧ s.age = ag := by
  cases n with
  | vstr nm =>
    simp only [Student.init] at h
    by_cases hnm : nm = ""
    · rw [if_pos hnm] at h
      simp at h
    · rw [if_neg hnm] at h
      cases a with
      | vint ag =>
        dsimp only at h
        by_cases hag : ag < 0
        · rw [if_pos hag] at h
          simp at h
        · rw [if_neg hag] at h
          cases ad with
          | vobj fs =>
            dsimp only at h
            rcases hai : Address.init (alGet fs "city") (alGet fs "country")
                with e | addr <;> rw [hai] at h
            · simp at h
            · simp only [Except.ok.injEq] at h
              refine ⟨nm, ag, fs, rfl, hnm, rfl, hag, rfl, ?_, ?_, ?_⟩
              · rw [← h]
                exact hai
              · rw [← h]
              · rw [← h]
          | vstr t => simp at h
          | vint m => simp at h
          | varr xs => simp at h
      | vstr t => simp at h
      | varr xs => simp at h
      | vobj gs => simp at h
  | vint m => simp [Student.init] at h
  | varr xs => simp [Student.init] at h
  | vobj gs => simp [Student.init] at h

theorem bodyToStudent_ok (body : Fields) (s : Student)
    (h : bodyToStudent body = .ok s) :
    ∃ nv av adv, alGet body "name" = some nv ∧ alGet body "age" = some av ∧
      alGet body "address" = some adv ∧ Student.init nv av adv = .ok s := by
  simp only [bodyToStudent] at h
  rcases hn : alGet body "name" with _ | nv <;> rw [hn] at h <;>
    rcases ha : alGet body "age" with _ | av <;> rw [ha] at h <;>
      rcases had : alGet body "address" with _ | adv <;> rw [had] at h <;>
        try simp at h
  exact ⟨nv, av, adv, rfl, rfl, rfl, h⟩

theorem create_doc_valid (body : Fields) (s : Student)
    (hb : goodCreateBody body = true) (h : bodyToStudent body = .ok s) :
    docValid (Student.to_dict s) = true := by
  obtain ⟨nv, av, adv, hn, ha, had, hinit⟩ := bodyToStudent_ok body s h
  obtain ⟨nm, ag, fs, rfl, hnm, rfl, hag, rfl, haddr, hsn, hsa⟩ :=
    studentInit_ok _ _ _ s hinit
  obtain ⟨cv, kv, hc, hk, hct, hkt, hsad⟩ := addressInit_ok _ _ _ haddr
  simp only [goodCreateBody, had] at hb
  rw [Bool.and_eq_true] at hb
  obtain ⟨hb1, hb2⟩ := hb
  rw [hc] at hb1
  rw [hk] at hb2
  cases cv with
  | vstr c =>
    cases kv with
    | vstr c' =>
      simp only [Value.truthy] at hct hkt
      have hag' : (0 : Int) ≤ ag := by omega
      simp [docValid, Student.to_dict, Address.to_dict, alGet, nonEmptyStr,
        nonNegInt, validAddrVal, addrValid, hsn, hsa, hsad, hnm, hct, hkt, hag']
    | vint m => simp [strOrAbsent] at hb2
    | varr xs => simp [strOrAbsent] at hb2
    | vobj gs => simp [strOrAbsent] at hb2
  | vint m => simp [strOrAbsent] at hb1
  | varr xs => simp [strOrAbsent] at hb1
  | vobj gs => simp [strOrAbsent] at hb1

theorem create_preserves (db : DB) (body : Fields)
    (hdb : dbValid db = true) (hb : goodCreateBody body = true) :
    dbValid (create_student body db).2 = true := by
  rcases hbs : bodyToStudent body with e | s
  · simpa [create_student, hbs] using hdb
  · have hdoc := create_doc_valid body s hb hbs
    simp only [create_student, hbs]
    simp only [dbValid] at hdb ⊢
    rw [List.all_append, Bool.and_eq_true]
    exact ⟨hdb, by simpa using hdoc⟩

theorem mkUpdateData_good (body doc ud : Fields)
    (hb : goodUpdateBody body = true) (hd : docValid doc = true)
    (h : mkUpdateData body doc = .ok ud) :
    ∀ kv ∈ ud, fieldGood kv.1 kv.2 = true := by
  simp only [goodUpdateBody] at hb
  rw [Bool.and_eq_true, Bool.and_eq_true] at hb
  obtain ⟨⟨hbn, hba⟩, hbad⟩ := hb
  have hscalar := mkScalarUD_good body hbn hba
  simp only [mkUpdateData] at h
  rcases had : alGet body "address" with _ | av <;> rw [had] at h hbad
  · simp only [Except.ok.injEq] at h
    rw [← h]
    exact hscalar
  · cases av with
    | vobj ab =>
      simp only at hbad
      rw [Bool.and_eq_true] at hbad
      have hd' := hd
      simp only [docValid] at hd'
      rw [Bool.and_eq_true, Bool.and_eq_true] at hd'
      obtain ⟨⟨_, _⟩, hdv⟩ := hd'
      rcases hda : alGet doc "address" with _ | sv <;> rw [hda] at h hdv
      · simp [validAddrVal] at hdv
      · cases sv with
        | vobj a0 =>
          simp only [validAddrVal] at hdv
          simp only [dictCopy] at h
          rcases hma : mergeAddress (.vobj ab) a0 with e | a2 <;> rw [hma] at h
          · simp at h
          · simp only [Except.ok.injEq] at h
            rw [← h]
            intro kv hkv
            rcases mem_alSet _ _ _ _ hkv with hm | hm
            · exact hscalar kv hm
            · rw [hm]
              simp only [fieldGood, if_neg (by decide : ¬("address" = "name")),
                if_neg (by decide : ¬("address" = "age")), if_pos rfl,
                validAddrVal]
              exact mergeAddress_valid ab a0 a2 hdv hbad.1 hbad.2 hma
        | vstr t => simp [validAddrVal] at hdv
        | vint m => simp [validAddrVal] at hdv
        | varr xs => simp [validAddrVal] at hdv
    | vstr t => simp at hbad
    | vint m => simp at hbad
    | varr xs => simp at hbad

theorem update_preserves (db : DB) (ids : String) (body : Fields)
    (hdb : dbValid db = true) (hb : goodUpdateBody body = true) :
    dbValid (update_student ids body db).2 = true := by
  cases hfk : findBadKey (body.map Prod.fst) with
  | some k => simpa [update_student, hfk] using hdb
  | none =>
    rcases hca : checkAddrKeys body with e | od
    · simpa [update_student, hfk, hca] using hdb
    · cases od with
      | some d => simpa [update_student, hfk, hca] using hdb
      | none =>
        rcases hp : parseObjectId ids with e | oid
        · simpa [update_student, hfk, hca, hp] using hdb
        · rcases hdoc : alGet db.docs oid with _ | doc
          · simpa [update_student, hfk, hca, hp, hdoc] using hdb
          · rcases hud : mkUpdateData body doc with e | ud
            · simpa [update_student, hfk, hca, hp, hdoc, hud] using hdb
            · rcases hemp : ud.isEmpty with _ | _
              · have hdocv : docValid doc = true := by
                  simp only [dbValid, List.all_eq_true] at hdb
                  exact hdb (oid, doc) (alGet_mem db.docs oid doc hdoc)
                have hnew : docValid (applySet doc ud) = true :=
                  docValid_applySet ud doc hdocv
                    (mkUpdateData_good body doc ud hb hdocv hud)
                have hall : dbValid
                    ⟨alSet db.docs oid (applySet doc ud), db.counter⟩ = true := by
                  simp only [dbValid] at hdb ⊢
                  exact all_alSet _ db.docs oid _ hdb hnew
                by_cases hnd : applySet doc ud = doc <;>
                  simpa [update_student, hfk, hca, hp, hdoc, hud, hemp, hnd]
                    using hall
              · simpa [update_student, hfk, hca, hp, hdoc, hud, hemp] using hdb

theorem runOps_preserves (ops : List Op) (db : DB)
    (hdb : dbValid db = true) (hops : ∀ op ∈ ops, goodOp op = true) :
    dbValid (runOps db ops) = true := by
  induction ops generalizing db with
  | nil => simpa [runOps] using hdb
  | cons op rest ih =>
    have h1 : dbValid (applyOp db op) = true := by
      cases op with
      | create b =>
        exact create_preserves db b hdb
          (by simpa [goodOp] using hops _ (List.mem_cons_self _ _))
      | update i b =>
        exact update_preserves db i b hdb
          (by simpa [goodOp] using hops _ (List.mem_cons_self _ _))
    have h2 : ∀ op' ∈ rest, goodOp op' = true :=
      fun o ho => hops o (List.mem_cons_of_mem _ ho)
    simpa [runOps] using ih (applyOp db op) h1 h2

/-- C3 counterexample: update performs only structural (key-level)
validation, so a successful create followed by a successful update whose
body is `age = -1` leaves a stored record violating the `age ≥ 0`
invariant — the claim as stated fails on this concrete sequence of one
create and one update, both of which the service accepts. -/
theorem claim_C3_counterexample :
    (create_student bodyAnn emptyDB).1
      = .ok 201 (some (.vobj [("id", .vstr (genOid 0))])) ∧
    (update_student (genOid 0) [("age", .vint (-1))] dbAnn).1 = .ok 204 none ∧
    dbValid (runOps emptyDB
      [.create bodyAnn, .update (genOid 0) [("age", .vint (-1))]]) = false := by
  have hw := update_student_write dbAnn (genOid 0) (genOid 0)
    [("age", .vint (-1))] annDoc [("age", .vint (-1))]
    rfl rfl rfl rfl rfl (by simp)
  have hcond : ¬(applySet annDoc [("age", Value.vint (-1))] = annDoc) := by
    simp [applySet, alSet, annDoc]
  rw [if_neg hcond] at hw
  refine ⟨rfl, ?_, ?_⟩
  · rw [hw]
  · have hrw : runOps emptyDB
        [Op.create bodyAnn, Op.update (genOid 0) [("age", .vint (-1))]]
        = (update_student (genOid 0) [("age", .vint (-1))] dbAnn).2 := rfl
    rw [hrw, hw]
    have hdocs : dbAnn.docs = [(genOid 0, annDoc)] := rfl
    rw [hdocs]
    simp [applySet, alSet, annDoc, annAddr, dbValid, docValid, nonNegInt,
      alGet, nonEmptyStr, validAddrVal]

/-- C3 (amended): records stored by create always satisfy the data-model
invariants, and updates preserve them **provided** every update body
provides only well-typed, value-valid fields (name a non-empty string,
age a non-negative integer, address sub-fields non-empty strings) and
every create body's address sub-fields are strings — the handlers
themselves enforce this on create but not on update, so the proviso on
update bodies (and string-ness on create bodies) is necessary, as the
counterexample shows. -/
theorem claim_C3_invariants_amended (db : DB) (ops : List Op)
    (hdb : dbValid db = true) (hops : ∀ op ∈ ops, goodOp op = true) :
    dbValid (runOps db ops) = true :=
  runOps_preserves ops db hdb hops

/-- C3 witness: a create followed by a value-valid update keeps every
stored record valid. -/
theorem claim_C3_witness :
    dbValid (runOps emptyDB
      [.create bodyAnn, .update (genOid 0) [("age", .vint 3)]]) = true :=
  claim_C3_invariants_amended emptyDB
    [.create bodyAnn, .update (genOid 0) [("age", .vint 3)]]
    rfl (by decide)

end StudentApp
